import Mathlib

/-!
Verification development for the PDRF ArcGIS scraper pipeline
(`src/hdx/scraper/pdrf/pipeline.py`).

The embedding models the two core operations, `Pipeline.get_layers`
(directory walk over services and layers) and `Pipeline.get_date_range`
(aggregate min/max statistics extraction), together with the frame
manipulation inside `Pipeline.generate_dataset`.

Remote HTTP calls (`requests.get(...).json()`) are modelled as oracles:
functions from the request URL to `Except PyErr` of the decoded JSON
structure.  Python exceptions are modelled by the `Except` monad with
error type `PyErr`.  Timestamps are modelled by the `DateTime` structure;
every `DateTime` value is implicitly a timezone-aware UTC instant, as
produced by the external date parser.
-/

deriving instance DecidableEq for Except

/-- Python-level errors that can flow through the pipeline.  `requestError`
models any network/HTTP/JSON-decoding failure of a remote call, `keyError`
and `indexError` model the corresponding Python exceptions raised by
subscripting, and `parseError` models the error raised by the external
date parser on a malformed non-null input. -/
inductive PyErr
  | requestError (msg : String)
  | keyError (k : String)
  | indexError
  | parseError (s : String)
deriving DecidableEq, Repr

/-- A timezone-aware UTC timestamp (year, month, day, hour, minute, second),
the normalized output of the external date parser. -/
structure DateTime where
  year : Nat
  month : Nat
  day : Nat
  hour : Nat
  minute : Nat
  second : Nat
deriving DecidableEq, Repr

/-- Greedily consume at most `k` further decimal digits, extending the
accumulator `acc`; returns the value and the remaining characters. -/
def takeDigitsAux : Nat → Nat → List Char → Nat × List Char
  | 0, acc, l => (acc, l)
  | _ + 1, acc, [] => (acc, [])
  | k + 1, acc, c :: rest =>
    if c.isDigit then takeDigitsAux k (acc * 10 + (c.toNat - 48)) rest
    else (acc, c :: rest)

/-- Consume between 1 and `maxDigits` decimal digits, greedily.  Fails when
the first character is not a digit. -/
def takeNum (maxDigits : Nat) (l : List Char) : Option (Nat × List Char) :=
  match l with
  | [] => none
  | c :: rest =>
    if c.isDigit then some (takeDigitsAux (maxDigits - 1) (c.toNat - 48) rest)
    else none

/-- Consume one expected literal character. -/
def expectChar (c : Char) : List Char → Option (List Char)
  | [] => none
  | d :: rest => if d = c then some rest else none

/-- Consume a meridiem indicator (`AM`/`PM`, case-insensitive); returns
`true` for PM. -/
def takeMeridiem : List Char → Option (Bool × List Char)
  | c1 :: c2 :: rest =>
    if (c1 = 'A' ∨ c1 = 'a') ∧ (c2 = 'M' ∨ c2 = 'm') then some (false, rest)
    else if (c1 = 'P' ∨ c1 = 'p') ∧ (c2 = 'M' ∨ c2 = 'm') then some (true, rest)
    else none
  | _ => none

/-- Number of days in a month, with the Gregorian leap-year rule. -/
def daysInMonth (y m : Nat) : Nat :=
  if m = 2 then
    if (y % 4 = 0 ∧ y % 100 ≠ 0) ∨ y % 400 = 0 then 29 else 28
  else if m = 4 ∨ m = 6 ∨ m = 9 ∨ m = 11 then 30 else 31

/-- Modelled from the spec: strict parsing of a date string against the one
fixed source format of `pipeline.py` line 181, the literal
`"%m/%d/%Y %I:%M:%S %p"` — month/day/year with 12-hour time and meridiem
indicator (spec §4.2 step 3, §9 "Fixed-format date parsing").  The
implementation of the underlying `strptime`-style matcher is external to
the repository; per the spec it is format-exact: any non-matching input
yields no value.  A 12-hour value of 12 denotes hour 0 with AM and hour 12
with PM; the whole input must be consumed. -/
def strptimeMdy12 (s : String) : Option DateTime := do
  let r0 := s.toList
  let (mo, r1) ← takeNum 2 r0
  let r2 ← expectChar '/' r1
  let (dy, r3) ← takeNum 2 r2
  let r4 ← expectChar '/' r3
  let (yr, r5) ← takeNum 4 r4
  let r6 ← expectChar ' ' r5
  let (h12, r7) ← takeNum 2 r6
  let r8 ← expectChar ':' r7
  let (mi, r9) ← takeNum 2 r8
  let r10 ← expectChar ':' r9
  let (se, r11) ← takeNum 2 r10
  let r12 ← expectChar ' ' r11
  let (pm, r13) ← takeMeridiem r12
  if r13 = [] ∧ 1 ≤ yr ∧ 1 ≤ mo ∧ mo ≤ 12 ∧ 1 ≤ dy ∧ dy ≤ daysInMonth yr mo ∧
      1 ≤ h12 ∧ h12 ≤ 12 ∧ mi ≤ 59 ∧ se ≤ 59 then
    let hour := if pm then (if h12 = 12 then 12 else h12 + 12)
                else (if h12 = 12 then 0 else h12)
    some ⟨yr, mo, dy, hour, mi, se⟩
  else
    none

/-- Modelled from the spec: the external date parser
`hdx.utilities.dateparse.parse_date`, applied in `pipeline.py` lines
182–183 to `attrs.get("min_date")` / `attrs.get("max_date")` with the fixed
format of line 181.  Its implementation is not part of this repository; the
spec (§4.2 step 4, §6) fixes its contract: it accepts null/absent input and
propagates null rather than raising, returns a timezone-aware UTC timestamp
for a non-null input matching the fixed format, and raises on a malformed
non-null input. -/
def parse_date (raw : Option String) : Except PyErr (Option DateTime) :=
  match raw with
  | none => Except.ok none
  | some s =>
    match strptimeMdy12 s with
    | some dt => Except.ok (some dt)
    | none => Except.error (PyErr.parseError s)

/-- The `attributes` map of the single statistics result row
(`pipeline.py` line 180): `attrs.get("min_date")` / `attrs.get("max_date")`.
`none` models a key that is absent or bound to JSON null. -/
structure StatsAttributes where
  min_date : Option String
  max_date : Option String
deriving DecidableEq, Repr

/-- One entry of the `features` array of the statistics response; `none`
for `attributes` models an absent `attributes` key (Python `KeyError`). -/
structure StatsFeature where
  attributes : Option StatsAttributes
deriving DecidableEq, Repr

/-- Decoded JSON of the statistics query response (`pipeline.py` lines
176–178); `none` for `features` models an absent `features` key. -/
structure StatsResponse where
  features : Option (List StatsFeature)
deriving DecidableEq, Repr

/-- The pair returned by `get_date_range` (`pipeline.py` line 185). -/
structure DateRange where
  min_date : Option DateTime
  max_date : Option DateTime
deriving DecidableEq, Repr

/-- Embedding of `Pipeline.get_date_range` (`pipeline.py` lines 151–185).
The remote statistics call (`requests.get(f"{layer_url}/query?...").json()`,
lines 176–178, with the fixed query of lines 155–175) is the oracle
`fetchStats`, keyed by the layer URL; a network/JSON failure is an error of
the oracle and propagates.  `stats_response["features"][0]["attributes"]`
(line 180) raises `KeyError` on a missing key and `IndexError` on an empty
`features` list.  Both bounds are then parsed (min first, as in lines
182–183) and the parsed pair is returned as-is. -/
def get_date_range (fetchStats : String → Except PyErr StatsResponse)
    (layer_url : String) : Except PyErr DateRange :=
  match fetchStats layer_url with
  | Except.error e => Except.error e
  | Except.ok stats_response =>
    match stats_response.features with
    | none => Except.error (PyErr.keyError "features")
    | some feats =>
      match feats with
      | [] => Except.error PyErr.indexError
      | f0 :: _ =>
        match f0.attributes with
        | none => Except.error (PyErr.keyError "attributes")
        | some attrs =>
          match parse_date attrs.min_date with
          | Except.error e => Except.error e
          | Except.ok mn =>
            match parse_date attrs.max_date with
            | Except.error e => Except.error e
            | Except.ok mx => Except.ok { min_date := mn, max_date := mx }

/-- One entry of the `services` array of the directory listing
(`pipeline.py` lines 40–41): both `name` and `type` are required keys. -/
structure ServiceEntry where
  name : String
  type : String
deriving DecidableEq, Repr

/-- One entry of the `layers` array of a service's layer listing
(`pipeline.py` lines 50–51): both `id` and `name` are required keys. -/
structure LayerEntry where
  id : Int
  name : String
deriving DecidableEq, Repr

/-- Decoded JSON of the root directory listing (`pipeline.py` line 35);
`none` for `services` models an absent `services` key, defaulted to `[]`
by `response.get("services", [])` (line 36). -/
structure DirectoryResponse where
  services : Option (List ServiceEntry)
deriving DecidableEq, Repr

/-- Decoded JSON of a per-service layer listing (`pipeline.py` line 44);
`none` for `layers` models an absent `layers` key, defaulted to `[]` by
`layers_response.get("layers", [])` (line 45). -/
structure LayersResponse where
  layers : Option (List LayerEntry)
deriving DecidableEq, Repr

/-- The remote ArcGIS surface seen by the walk, as oracles on request URLs:
`directory` models `requests.get(f"{base_url}/{folder}?f=json").json()`
(line 35), `serviceLayers` models `requests.get(f"{service_url}?f=json")`
keyed by the service URL (line 44), and `layerStats` models the statistics
query keyed by the layer URL (lines 176–178).  An `Except.error` result
models any exception raised by the call (network, HTTP, JSON decoding). -/
structure ArcGISServer where
  directory : Except PyErr DirectoryResponse
  serviceLayers : String → Except PyErr LayersResponse
  layerStats : String → Except PyErr StatsResponse

/-- The two configuration strings and the tag list consumed by the
pipeline (`pipeline.py` lines 33–34 and 95). -/
structure Config where
  base_url : String
  folder : String
  tags : List String
deriving DecidableEq, Repr

/-- The output record of the walk, appended once per layer
(`pipeline.py` lines 60–68). -/
structure LayerDescriptor where
  layer_id : Int
  layer_name : String
  min_date : Option DateTime
  max_date : Option DateTime
  service_url : String
deriving DecidableEq, Repr

/-- `service_url = f"{base_url}/{service_name}/{service_type}"`
(`pipeline.py` line 42). -/
def mkServiceUrl (cfg : Config) (service : ServiceEntry) : String :=
  cfg.base_url ++ "/" ++ service.name ++ "/" ++ service.type

/-- `layer_url = f"{service_url}/{layer_id}"` (`pipeline.py` line 52). -/
def mkLayerUrl (service_url : String) (layer : LayerEntry) : String :=
  service_url ++ "/" ++ toString layer.id

/-- Body of the inner loop of `get_layers` (`pipeline.py` lines 49–68):
resolve the layer's extent via `get_date_range`, substituting the
null/null pair when it raises any exception (the `try`/`except` of lines
54–58; the `print` diagnostic is a side effect outside the model), then
build the descriptor appended to `results`. -/
def processLayer (srv : ArcGISServer) (service_url : String)
    (layer : LayerEntry) : LayerDescriptor :=
  let layer_url := mkLayerUrl service_url layer
  let stats :=
    match get_date_range srv.layerStats layer_url with
    | Except.ok s => s
    | Except.error _ => { min_date := none, max_date := none }
  { layer_id := layer.id
    layer_name := layer.name
    min_date := stats.min_date
    max_date := stats.max_date
    service_url := service_url }

/-- Body of the outer loop of `get_layers` for one service (`pipeline.py`
lines 39–68): fetch the service's layer listing (an exception propagates),
skip the service when the listing is absent or empty (`if not layers:
continue`, lines 46–47), otherwise produce one descriptor per layer in
listing order. -/
def processService (cfg : Config) (srv : ArcGISServer)
    (service : ServiceEntry) : Except PyErr (List LayerDescriptor) :=
  let service_url := mkServiceUrl cfg service
  match srv.serviceLayers service_url with
  | Except.error e => Except.error e
  | Except.ok layersResponse =>
    let layers := layersResponse.layers.getD []
    if layers.isEmpty then Except.ok []
    else Except.ok (layers.map (processLayer srv service_url))

/-- The outer loop of `get_layers` over the service list, accumulating
descriptors in order; the first exception raised by a per-service layer
listing aborts the whole walk. -/
def walkServices (cfg : Config) (srv : ArcGISServer) :
    List ServiceEntry → Except PyErr (List LayerDescriptor)
  | [] => Except.ok []
  | service :: rest =>
    match processService cfg srv service with
    | Except.error e => Except.error e
    | Except.ok descs =>
      match walkServices cfg srv rest with
      | Except.error e => Except.error e
      | Except.ok more => Except.ok (descs ++ more)

/-- Embedding of `Pipeline.get_layers` (`pipeline.py` lines 28–70): fetch
the root directory listing (an exception propagates), default an absent
`services` key to `[]`, then walk the services in listing order. -/
def get_layers (cfg : Config) (srv : ArcGISServer) :
    Except PyErr (List LayerDescriptor) :=
  match srv.directory with
  | Except.error e => Except.error e
  | Except.ok response => walkServices cfg srv (response.services.getD [])

example : strptimeMdy12 "07/24/2024 04:00:00 AM" = some ⟨2024, 7, 24, 4, 0, 0⟩ := by decide
example : strptimeMdy12 "2024-07-24" = none := by decide
example : strptimeMdy12 "08/05/2024 12:30:15 PM" = some ⟨2024, 8, 5, 12, 30, 15⟩ := by decide
example : strptimeMdy12 "07/24/2024 04:00:00 AM " = none := by decide

/-! Helper lemmas shared by the claim theorems. -/

theorem parse_date_ok_none_iff (raw : Option String) (v : Option DateTime)
    (h : parse_date raw = Except.ok v) : v = none ↔ raw = none := by
  cases raw with
  | none =>
    simp [parse_date] at h
    simp [h.symm]
  | some s =>
    simp only [parse_date] at h
    cases hs : strptimeMdy12 s with
    | none => rw [hs] at h; exact absurd h (by simp)
    | some dt =>
      rw [hs] at h
      simp at h
      simp [h.symm]

theorem get_date_range_ok_shape (fetch : String → Except PyErr StatsResponse)
    (url : String) (r : DateRange) (h : get_date_range fetch url = Except.ok r) :
    ∃ resp f rest attrs,
      fetch url = Except.ok resp ∧
      resp.features = some (f :: rest) ∧
      f.attributes = some attrs ∧
      parse_date attrs.min_date = Except.ok r.min_date ∧
      parse_date attrs.max_date = Except.ok r.max_date := by
  unfold get_date_range at h
  split at h
  · exact absurd h (by simp)
  rename_i resp hf
  split at h
  · exact absurd h (by simp)
  rename_i feats hfeat
  split at h
  · exact absurd h (by simp)
  rename_i f0 rest
  split at h
  · exact absurd h (by simp)
  rename_i attrs hattr
  split at h
  · exact absurd h (by simp)
  rename_i mn hmn
  split at h
  · exact absurd h (by simp)
  rename_i mx hmx
  simp only [Except.ok.injEq] at h
  exact ⟨resp, f0, rest, attrs, hf, hfeat, hattr, by rw [hmn, ← h], by rw [hmx, ← h]⟩

theorem processService_ok_shape (cfg : Config) (srv : ArcGISServer)
    (service : ServiceEntry) (descs : List LayerDescriptor)
    (h : processService cfg srv service = Except.ok descs) :
    ∃ lr, srv.serviceLayers (mkServiceUrl cfg service) = Except.ok lr ∧
      (descs = [] ∨
        descs = (lr.layers.getD []).map (processLayer srv (mkServiceUrl cfg service))) := by
  simp only [processService] at h
  split at h
  · exact absurd h (by simp)
  rename_i lr hsl
  refine ⟨lr, hsl, ?_⟩
  split at h
  · simp only [Except.ok.injEq] at h
    exact Or.inl h.symm
  · simp only [Except.ok.injEq] at h
    exact Or.inr h.symm

theorem walkServices_ok_of_listings (cfg : Config) (srv : ArcGISServer)
    (services : List ServiceEntry) (lrs : ServiceEntry → LayersResponse)
    (h : ∀ s ∈ services, srv.serviceLayers (mkServiceUrl cfg s) = Except.ok (lrs s)) :
    walkServices cfg srv services =
      Except.ok (services.flatMap fun s =>
        ((lrs s).layers.getD []).map (processLayer srv (mkServiceUrl cfg s))) := by
  induction services with
  | nil => simp [walkServices]
  | cons s rest ih =>
    have hs := h s (List.mem_cons_self s rest)
    have hrest := ih (fun t ht => h t (List.mem_cons_of_mem s ht))
    simp only [walkServices, processService, hs, hrest, List.flatMap_cons]
    by_cases hemp : ((lrs s).layers.getD []).isEmpty
    · rw [List.isEmpty_iff] at hemp
      simp [hemp]
    · simp [hemp]

theorem walkServices_ok_mem_shape (cfg : Config) (srv : ArcGISServer)
    (services : List ServiceEntry) (l : List LayerDescriptor)
    (h : walkServices cfg srv services = Except.ok l) :
    ∀ d ∈ l, ∃ su layer, d = processLayer srv su layer := by
  induction services generalizing l with
  | nil =>
    simp only [walkServices, Except.ok.injEq] at h
    intro d hd
    rw [← h] at hd
    exact absurd hd (List.not_mem_nil d)
  | cons s rest ih =>
    unfold walkServices at h
    split at h
    · exact absurd h (by simp)
    rename_i descs hps
    split at h
    · exact absurd h (by simp)
    rename_i more hw
    simp only [Except.ok.injEq] at h
    intro d hd
    rw [← h] at hd
    rcases List.mem_append.mp hd with hd1 | hd2
    · rcases processService_ok_shape cfg srv s descs hps with ⟨lr, _, hcase⟩
      rcases hcase with rfl | rfl
      · exact absurd hd1 (List.not_mem_nil d)
      · rcases List.mem_map.mp hd1 with ⟨layer, _, hly⟩
        exact ⟨mkServiceUrl cfg s, layer, hly.symm⟩
    · exact ih more hw d hd2

theorem walkServices_ok_listings_ok (cfg : Config) (srv : ArcGISServer)
    (services : List ServiceEntry) (l : List LayerDescriptor)
    (h : walkServices cfg srv services = Except.ok l) :
    ∀ s ∈ services, ∃ lr, srv.serviceLayers (mkServiceUrl cfg s) = Except.ok lr := by
  induction services generalizing l with
  | nil => simp
  | cons s rest ih =>
    unfold walkServices at h
    split at h
    · exact absurd h (by simp)
    rename_i descs hps
    split at h
    · exact absurd h (by simp)
    rename_i more hw
    intro t ht
    rcases List.mem_cons.mp ht with rfl | ht2
    · rcases processService_ok_shape cfg srv t descs hps with ⟨lr, hsl, _⟩
      exact ⟨lr, hsl⟩
    · exact ih more hw t ht2

/-! Concrete fixtures used by witnesses and counterexamples. -/

/-- A small concrete configuration for the witnesses. -/
def exCfg : Config := { base_url := "b", folder := "f", tags := ["geodata"] }

/-- Statistics attributes with both raw bounds present and well-formed. -/
def exGoodAttrs : StatsAttributes :=
  { min_date := some "07/24/2024 04:00:00 AM", max_date := some "08/05/2024 04:00:00 AM" }

/-- A statistics response with one usable result row, both bounds present. -/
def exGoodStats : StatsResponse :=
  { features := some [{ attributes := some exGoodAttrs }] }

/-- Statistics attributes with a null min bound and a well-formed max bound. -/
def cexAttrs : StatsAttributes :=
  { min_date := none, max_date := some "08/05/2024 04:00:00 AM" }

/-- A statistics response whose single row has exactly one null raw bound. -/
def cexStats : StatsResponse :=
  { features := some [{ attributes := some cexAttrs }] }

/-- Two services A (layers 0 and 1) then B (layer 0), every remote call
succeeding, every layer's statistics well-formed. -/
def exSrvAB : ArcGISServer :=
  { directory := Except.ok { services := some [⟨"A", "MapServer"⟩, ⟨"B", "MapServer"⟩] }
    serviceLayers := fun url =>
      if url = "b/A/MapServer" then Except.ok { layers := some [⟨0, "A0"⟩, ⟨1, "A1"⟩] }
      else Except.ok { layers := some [⟨0, "B0"⟩] }
    layerStats := fun _ => Except.ok exGoodStats }

/-- The layer listings of `exSrvAB`, as a function of the service entry. -/
def exLrsAB : ServiceEntry → LayersResponse := fun s =>
  if s.name = "A" then { layers := some [⟨0, "A0"⟩, ⟨1, "A1"⟩] }
  else { layers := some [⟨0, "B0"⟩] }

/-! Claim theorems. -/

/-- Claim C6: the sequence returned by `get_layers` groups all layers of one
service contiguously, in the order services appear in the directory
listing, and within each service in the order layers appear in its layer
listing: it is exactly the service-by-service concatenation of the
per-layer descriptors, with no reordering by date, name, or any global
sort. -/
theorem get_layers_ordering (cfg : Config) (srv : ArcGISServer)
    (resp : DirectoryResponse) (lrs : ServiceEntry → LayersResponse)
    (hdir : srv.directory = Except.ok resp)
    (hl : ∀ s ∈ resp.services.getD [],
      srv.serviceLayers (mkServiceUrl cfg s) = Except.ok (lrs s)) :
    get_layers cfg srv =
      Except.ok ((resp.services.getD []).flatMap fun s =>
        ((lrs s).layers.getD []).map (processLayer srv (mkServiceUrl cfg s))) := by
  simp only [get_layers, hdir]
  exact walkServices_ok_of_listings cfg srv _ lrs hl

/-- Witness for C6: walking services A (layers 0, 1) then B (layer 0)
yields descriptors in the order A.0, A.1, B.0. -/
theorem get_layers_ordering_witness :
    get_layers exCfg exSrvAB = Except.ok
      [ { layer_id := 0, layer_name := "A0", min_date := some ⟨2024, 7, 24, 4, 0, 0⟩,
          max_date := some ⟨2024, 8, 5, 4, 0, 0⟩, service_url := "b/A/MapServer" },
        { layer_id := 1, layer_name := "A1", min_date := some ⟨2024, 7, 24, 4, 0, 0⟩,
          max_date := some ⟨2024, 8, 5, 4, 0, 0⟩, service_url := "b/A/MapServer" },
        { layer_id := 0, layer_name := "B0", min_date := some ⟨2024, 7, 24, 4, 0, 0⟩,
          max_date := some ⟨2024, 8, 5, 4, 0, 0⟩, service_url := "b/B/MapServer" } ] := by
  have h := get_layers_ordering exCfg exSrvAB
    { services := some [⟨"A", "MapServer"⟩, ⟨"B", "MapServer"⟩] } exLrsAB rfl (by decide)
  exact h.trans (by decide)

/-- Service A's statistics call fails for layer 0 but succeeds for layer 1
and for B's layer 0; every listing call succeeds. -/
def exSrvFail : ArcGISServer :=
  { directory := Except.ok { services := some [⟨"A", "MapServer"⟩, ⟨"B", "MapServer"⟩] }
    serviceLayers := fun url =>
      if url = "b/A/MapServer" then Except.ok { layers := some [⟨0, "A0"⟩, ⟨1, "A1"⟩] }
      else Except.ok { layers := some [⟨0, "B0"⟩] }
    layerStats := fun url =>
      if url = "b/A/MapServer/0" then Except.error (PyErr.requestError "boom")
      else Except.ok exGoodStats }

/-- Claim C3: whenever the directory call and every per-service listing
call succeed, the walk returns a result list regardless of how extent
resolution behaves; every discoverable layer's descriptor is in the list,
and a layer whose `get_date_range` call raises any error still gets its
descriptor, with `min_date` and `max_date` both null. -/
theorem get_layers_fault_isolated (cfg : Config) (srv : ArcGISServer)
    (resp : DirectoryResponse) (lrs : ServiceEntry → LayersResponse)
    (hdir : srv.directory = Except.ok resp)
    (hl : ∀ s ∈ resp.services.getD [],
      srv.serviceLayers (mkServiceUrl cfg s) = Except.ok (lrs s)) :
    ∃ results, get_layers cfg srv = Except.ok results ∧
      ∀ s ∈ resp.services.getD [], ∀ layer ∈ (lrs s).layers.getD [],
        processLayer srv (mkServiceUrl cfg s) layer ∈ results ∧
        ∀ e, get_date_range srv.layerStats (mkLayerUrl (mkServiceUrl cfg s) layer) =
            Except.error e →
          processLayer srv (mkServiceUrl cfg s) layer =
            { layer_id := layer.id, layer_name := layer.name,
              min_date := none, max_date := none,
              service_url := mkServiceUrl cfg s } := by
  refine ⟨(resp.services.getD []).flatMap fun s =>
    ((lrs s).layers.getD []).map (processLayer srv (mkServiceUrl cfg s)), ?_, ?_⟩
  · simp only [get_layers, hdir]
    exact walkServices_ok_of_listings cfg srv _ lrs hl
  · intro s hs layer hlayer
    constructor
    · exact List.mem_flatMap.mpr ⟨s, hs, List.mem_map.mpr ⟨layer, hlayer, rfl⟩⟩
    · intro e he
      simp [processLayer, he]

/-- Witness for C3: with the statistics call failing for layer A.0 only,
the walk still returns all three descriptors and A.0 gets a null/null
extent. -/
theorem get_layers_fault_isolated_witness :
    ∃ results, get_layers exCfg exSrvFail = Except.ok results ∧
      ∀ s ∈ ({ services := some [⟨"A", "MapServer"⟩, ⟨"B", "MapServer"⟩] :
          DirectoryResponse }).services.getD [],
        ∀ layer ∈ (exLrsAB s).layers.getD [],
        processLayer exSrvFail (mkServiceUrl exCfg s) layer ∈ results ∧
        ∀ e, get_date_range exSrvFail.layerStats
            (mkLayerUrl (mkServiceUrl exCfg s) layer) = Except.error e →
          processLayer exSrvFail (mkServiceUrl exCfg s) layer =
            { layer_id := layer.id, layer_name := layer.name,
              min_date := none, max_date := none,
              service_url := mkServiceUrl exCfg s } :=
  get_layers_fault_isolated exCfg exSrvFail
    { services := some [⟨"A", "MapServer"⟩, ⟨"B", "MapServer"⟩] } exLrsAB rfl (by decide)

/-- Claim C4: a failure of the root directory call propagates out of
`get_layers` unchanged; a failure of the first service's layer-listing call
likewise aborts the whole walk with that error; and any successful walk
implies the directory call and every listed service's layer-listing call
succeeded — only the per-layer extent-resolution step is fault-isolated. -/
theorem get_layers_listing_failure_propagates (cfg : Config) (srv : ArcGISServer) :
    (∀ e, srv.directory = Except.error e → get_layers cfg srv = Except.error e) ∧
    (∀ resp s rest e, srv.directory = Except.ok resp →
      resp.services.getD [] = s :: rest →
      srv.serviceLayers (mkServiceUrl cfg s) = Except.error e →
      get_layers cfg srv = Except.error e) ∧
    (∀ descs, get_layers cfg srv = Except.ok descs →
      ∃ resp, srv.directory = Except.ok resp ∧
        ∀ s ∈ resp.services.getD [],
          ∃ lr, srv.serviceLayers (mkServiceUrl cfg s) = Except.ok lr) := by
  refine ⟨?_, ?_, ?_⟩
  · intro e he
    simp [get_layers, he]
  · intro resp s rest e hdir hserv hsl
    simp only [get_layers, hdir, hserv]
    unfold walkServices
    simp [processService, hsl]
  · intro descs h
    unfold get_layers at h
    split at h
    · exact absurd h (by simp)
    rename_i resp hdir
    exact ⟨resp, hdir, walkServices_ok_listings_ok cfg srv _ descs h⟩

/-- A server whose root directory call fails. -/
def exSrvDown : ArcGISServer :=
  { directory := Except.error (PyErr.requestError "down")
    serviceLayers := fun _ => Except.ok { layers := some [⟨0, "L0"⟩] }
    layerStats := fun _ => Except.ok exGoodStats }

/-- Witness for C4: a failing root directory call aborts the whole walk
with the same error. -/
theorem get_layers_listing_failure_propagates_witness :
    get_layers exCfg exSrvDown = Except.error (PyErr.requestError "down") :=
  (get_layers_listing_failure_propagates exCfg exSrvDown).1 (PyErr.requestError "down") rfl

/-- Claim C5: a service whose layer listing succeeds with an absent or
empty `layers` list contributes zero descriptors (its contribution to the
walk is the empty list, with no partial or placeholder entries), and this
holds for every statistics oracle whatsoever — so no extent resolution is
attempted for such a service. -/
theorem processService_empty_layers (cfg : Config)
    (dirR : Except PyErr DirectoryResponse)
    (sl : String → Except PyErr LayersResponse)
    (stats stats2 : String → Except PyErr StatsResponse)
    (service : ServiceEntry) (lr : LayersResponse)
    (hok : sl (mkServiceUrl cfg service) = Except.ok lr)
    (hempty : lr.layers.getD [] = []) :
    processService cfg ⟨dirR, sl, stats⟩ service = Except.ok [] ∧
    processService cfg ⟨dirR, sl, stats⟩ service =
      processService cfg ⟨dirR, sl, stats2⟩ service := by
  have h1 : ∀ st : String → Except PyErr StatsResponse,
      processService cfg ⟨dirR, sl, st⟩ service = Except.ok [] := by
    intro st
    simp [processService, hok, hempty]
  exact ⟨h1 stats, (h1 stats).trans (h1 stats2).symm⟩

/-- Witness for C5: a service with an absent `layers` key contributes zero
descriptors, for two different statistics oracles. -/
theorem processService_empty_layers_witness :
    processService exCfg
        ⟨Except.ok { services := some [⟨"E", "MapServer"⟩] },
          fun _ => Except.ok { layers := none },
          fun _ => Except.ok exGoodStats⟩ ⟨"E", "MapServer"⟩ = Except.ok [] ∧
    processService exCfg
        ⟨Except.ok { services := some [⟨"E", "MapServer"⟩] },
          fun _ => Except.ok { layers := none },
          fun _ => Except.ok exGoodStats⟩ ⟨"E", "MapServer"⟩ =
      processService exCfg
        ⟨Except.ok { services := some [⟨"E", "MapServer"⟩] },
          fun _ => Except.ok { layers := none },
          fun _ => Except.error (PyErr.requestError "never called")⟩ ⟨"E", "MapServer"⟩ :=
  processService_empty_layers exCfg _ _ _ _ ⟨"E", "MapServer"⟩ { layers := none } rfl rfl

/-- One service, one layer, whose statistics row has a null min bound and
a well-formed max bound. -/
def cexSrvPartial : ArcGISServer :=
  { directory := Except.ok { services := some [⟨"S", "MapServer"⟩] }
    serviceLayers := fun _ => Except.ok { layers := some [⟨0, "L0"⟩] }
    layerStats := fun _ => Except.ok cexStats }

/-- The descriptor list produced by walking `cexSrvPartial`: a partial
extent, min null and max present. -/
def cexPartialDescs : List LayerDescriptor :=
  [ { layer_id := 0, layer_name := "L0", min_date := none,
      max_date := some ⟨2024, 8, 5, 4, 0, 0⟩, service_url := "b/S/MapServer" } ]

/-- Counterexample to claim C1 as stated: with the null-propagating parser
fixed by the spec, a statistics row carrying exactly one null raw bound
produces a returned descriptor with exactly one of the two dates present. -/
theorem get_layers_partial_extent_cex :
    get_layers exCfg cexSrvPartial = Except.ok cexPartialDescs ∧
    ¬ ∀ d ∈ cexPartialDescs,
        (d.min_date = none ∧ d.max_date = none) ∨
        (d.min_date ≠ none ∧ d.max_date ≠ none) := by
  constructor
  · decide
  · decide

/-- Claim C1 (amended): whenever every statistics response delivered for a
layer has its two raw bounds both null/absent or both non-null, every
descriptor returned by `get_layers` has `min_date` and `max_date` both
present or both null; a response with exactly one null raw bound instead
yields a descriptor with exactly one date, so the pairing invariant holds
exactly under this assumption on the remote data (the caught-exception
path still nulls both dates whenever extent resolution raises). -/
theorem get_layers_extent_pairing (cfg : Config) (srv : ArcGISServer)
    (hstats : ∀ url resp f rest attrs, srv.layerStats url = Except.ok resp →
      resp.features = some (f :: rest) → f.attributes = some attrs →
      (attrs.min_date = none ↔ attrs.max_date = none)) :
    ∀ descs, get_layers cfg srv = Except.ok descs →
      ∀ d ∈ descs,
        (d.min_date = none ∧ d.max_date = none) ∨
        (d.min_date ≠ none ∧ d.max_date ≠ none) := by
  intro descs h d hd
  have hwalk : ∃ resp : DirectoryResponse,
      walkServices cfg srv (resp.services.getD []) = Except.ok descs := by
    unfold get_layers at h
    split at h
    · exact absurd h (by simp)
    rename_i resp hdir
    exact ⟨resp, h⟩
  rcases hwalk with ⟨resp, hwalk⟩
  rcases walkServices_ok_mem_shape cfg srv _ descs hwalk d hd with ⟨su, layer, rfl⟩
  simp only [processLayer]
  cases hgd : get_date_range srv.layerStats (mkLayerUrl su layer) with
  | error e => simp
  | ok r =>
    dsimp only
    rcases get_date_range_ok_shape _ _ _ hgd with
      ⟨resp2, f, rest, attrs, hf, hfeat, hattr, hmn, hmx⟩
    have hiff := hstats _ _ _ _ _ hf hfeat hattr
    have h1 := parse_date_ok_none_iff _ _ hmn
    have h2 := parse_date_ok_none_iff _ _ hmx
    by_cases hz : r.min_date = none
    · exact Or.inl ⟨hz, h2.mpr (hiff.mp (h1.mp hz))⟩
    · refine Or.inr ⟨hz, fun hmax => hz ?_⟩
      exact h1.mpr (hiff.mpr (h2.mp hmax))

/-- The full descriptor list produced by walking `exSrvAB`. -/
def exDescsAB : List LayerDescriptor :=
  [ { layer_id := 0, layer_name := "A0", min_date := some ⟨2024, 7, 24, 4, 0, 0⟩,
      max_date := some ⟨2024, 8, 5, 4, 0, 0⟩, service_url := "b/A/MapServer" },
    { layer_id := 1, layer_name := "A1", min_date := some ⟨2024, 7, 24, 4, 0, 0⟩,
      max_date := some ⟨2024, 8, 5, 4, 0, 0⟩, service_url := "b/A/MapServer" },
    { layer_id := 0, layer_name := "B0", min_date := some ⟨2024, 7, 24, 4, 0, 0⟩,
      max_date := some ⟨2024, 8, 5, 4, 0, 0⟩, service_url := "b/B/MapServer" } ]

/-- The first descriptor of `exDescsAB`. -/
def exDescA0 : LayerDescriptor :=
  { layer_id := 0, layer_name := "A0", min_date := some ⟨2024, 7, 24, 4, 0, 0⟩,
    max_date := some ⟨2024, 8, 5, 4, 0, 0⟩, service_url := "b/A/MapServer" }

/-- Witness for the amended C1: on a server whose statistics rows always
carry both bounds, the first descriptor of the walk of `exSrvAB` has both
dates present or both null. -/
theorem get_layers_extent_pairing_witness :
    (exDescA0.min_date = none ∧ exDescA0.max_date = none) ∨
    (exDescA0.min_date ≠ none ∧ exDescA0.max_date ≠ none) :=
  get_layers_extent_pairing exCfg exSrvAB
    (by
      intro url resp f rest attrs hok hfeat hattr
      simp only [exSrvAB] at hok
      injection hok with h1
      subst h1
      simp only [exGoodStats] at hfeat
      injection hfeat with h2
      injection h2 with h3 h4
      subst h3
      simp only at hattr
      injection hattr with h5
      subst h5
      decide)
    exDescsAB (by decide) exDescA0 (by decide)

/-- Claim C2: in `get_date_range`, a null or absent raw value for either
bound of the statistics row parses to null without raising, and the parsed
pair is returned as-is (here shown with the other bound parsing
successfully, so that the returned pair is visible). -/
theorem get_date_range_null_bound (fetch : String → Except PyErr StatsResponse)
    (url : String) (resp : StatsResponse) (f : StatsFeature)
    (rest : List StatsFeature) (attrs : StatsAttributes)
    (hf : fetch url = Except.ok resp)
    (hfeat : resp.features = some (f :: rest))
    (hattr : f.attributes = some attrs) :
    (attrs.min_date = none →
      parse_date attrs.min_date = Except.ok none ∧
      ∀ mx, parse_date attrs.max_date = Except.ok mx →
        get_date_range fetch url = Except.ok { min_date := none, max_date := mx }) ∧
    (attrs.max_date = none →
      parse_date attrs.max_date = Except.ok none ∧
      ∀ mn, parse_date attrs.min_date = Except.ok mn →
        get_date_range fetch url = Except.ok { min_date := mn, max_date := none }) := by
  have hpn : parse_date none = Except.ok none := rfl
  constructor
  · intro hmn0
    constructor
    · rw [hmn0]
      exact hpn
    · intro mx hmx
      simp [get_date_range, hf, hfeat, hattr, hmn0, hpn, hmx]
  · intro hmx0
    constructor
    · rw [hmx0]
      exact hpn
    · intro mn hmn
      simp [get_date_range, hf, hfeat, hattr, hmx0, hpn, hmn]

/-- The single feature row of `cexStats`. -/
def cexFeature : StatsFeature := { attributes := some cexAttrs }

/-- Witness for C2: a row with a null min bound and a parseable max bound
makes `get_date_range` return the pair null / 2024-08-05T04:00:00Z. -/
theorem get_date_range_null_bound_witness :
    get_date_range (fun _ => Except.ok cexStats) "u" =
      Except.ok { min_date := none, max_date := some ⟨2024, 8, 5, 4, 0, 0⟩ } :=
  ((get_date_range_null_bound (fun _ => Except.ok cexStats) "u" cexStats
      cexFeature [] cexAttrs rfl rfl rfl).1 rfl).2
    (some ⟨2024, 8, 5, 4, 0, 0⟩) (by decide)

/-- Claim C7: date parsing is format-exact against the single literal
format `"%m/%d/%Y %I:%M:%S %p"` (month/day/year, 12-hour time, meridiem):
the input `"07/24/2024 04:00:00 AM"` parses to the UTC timestamp
2024-07-24T04:00:00Z, a concrete non-matching input is rejected with an
error, and in general every non-null raw value that does not match the
format causes an error rather than a value. -/
theorem parse_date_format_exact :
    parse_date (some "07/24/2024 04:00:00 AM") =
      Except.ok (some ⟨2024, 7, 24, 4, 0, 0⟩) ∧
    parse_date (some "2024-07-24T04:00:00Z") =
      Except.error (PyErr.parseError "2024-07-24T04:00:00Z") ∧
    ∀ s, strptimeMdy12 s = none →
      parse_date (some s) = Except.error (PyErr.parseError s) := by
  refine ⟨by decide, by decide, ?_⟩
  intro s hs
  simp [parse_date, hs]

/-- Witness for C7: the non-matching input `"07-24-2024"` does not parse
under the fixed format and is rejected with a parse error. -/
theorem parse_date_format_exact_witness :
    strptimeMdy12 "07-24-2024" = none ∧
    parse_date (some "07-24-2024") = Except.error (PyErr.parseError "07-24-2024") :=
  ⟨by decide, parse_date_format_exact.2.2 "07-24-2024" (by decide)⟩

/-- Claim C8: when the statistics response for a layer is usable as JSON
but has no usable result row — no `features` entry, an empty `features`
list, or a first row with no `attributes` map — `get_date_range` raises an
error to its caller rather than returning a value. -/
theorem get_date_range_no_row_raises (fetch : String → Except PyErr StatsResponse)
    (url : String) (resp : StatsResponse)
    (hok : fetch url = Except.ok resp)
    (hbad : resp.features = none ∨ resp.features = some [] ∨
      ∃ f rest, resp.features = some (f :: rest) ∧ f.attributes = none) :
    ∃ e, get_date_range fetch url = Except.error e := by
  rcases hbad with h1 | h2 | ⟨f, rest, h3, h4⟩
  · exact ⟨PyErr.keyError "features", by simp [get_date_range, hok, h1]⟩
  · exact ⟨PyErr.indexError, by simp [get_date_range, hok, h2]⟩
  · exact ⟨PyErr.keyError "attributes", by simp [get_date_range, hok, h3, h4]⟩

/-- Witness for C8: a response with no `features` entry makes
`get_date_range` raise. -/
theorem get_date_range_no_row_raises_witness :
    ∃ e, get_date_range (fun _ => Except.ok { features := none }) "u" =
      Except.error e :=
  get_date_range_no_row_raises (fun _ => Except.ok { features := none }) "u"
    { features := none } rfl (Or.inl rfl)

/-! Model of the GeoDataFrame manipulation inside `generate_dataset`
(`pipeline.py` lines 90 and 109–115).  A frame is a list of named columns;
a cell is null, a string, a number, or a point geometry (coordinates are
modelled as integers — their numeric type plays no role in the claims). -/

/-- One cell of a frame. -/
inductive Cell
  | null
  | str (s : String)
  | num (n : Int)
  | point (x y : Int)
deriving DecidableEq, Repr

/-- One named column of a frame. -/
structure Column where
  name : String
  cells : List Cell
deriving DecidableEq, Repr

/-- A frame: the ordered list of its columns. -/
abbrev GeoDataFrame := List Column

/-- Look up a column by name (first match). -/
def getColumn (gdf : GeoDataFrame) (n : String) : Option (List Cell) :=
  match gdf with
  | [] => none
  | c :: rest => if c.name = n then some c.cells else getColumn rest n

/-- Column assignment `gdf[n] = cells`: replace the column in place when it
exists, append it at the end otherwise (pandas semantics). -/
def setColumn (gdf : GeoDataFrame) (n : String) (cells : List Cell) : GeoDataFrame :=
  match gdf with
  | [] => [⟨n, cells⟩]
  | c :: rest => if c.name = n then ⟨n, cells⟩ :: rest else c :: setColumn rest n cells

/-- `gdf.geometry.x`: the x coordinate of each cell of the `geometry`
column (null for a non-point cell; `[]` when the column is absent). -/
def geometryX (gdf : GeoDataFrame) : List Cell :=
  match getColumn gdf "geometry" with
  | some cells => cells.map fun c => match c with | Cell.point x _ => Cell.num x | _ => Cell.null
  | none => []

/-- `gdf.geometry.y`, as `geometryX`. -/
def geometryY (gdf : GeoDataFrame) : List Cell :=
  match getColumn gdf "geometry" with
  | some cells => cells.map fun c => match c with | Cell.point _ y => Cell.num y | _ => Cell.null
  | none => []

/-- `gdf.drop(columns=names)`: a new frame without the named columns; the
original frame is untouched. -/
def dropColumns (gdf : GeoDataFrame) (names : List String) : GeoDataFrame :=
  gdf.filter fun c => !names.contains c.name

/-- `gdf.fillna(v)`: a new frame with every null cell replaced by `v`; the
original frame is untouched. -/
def fillna (gdf : GeoDataFrame) (v : Cell) : GeoDataFrame :=
  gdf.map fun c => ⟨c.name, c.cells.map fun x => match x with | Cell.null => v | other => other⟩

/-- Embedding of `pipeline.py` lines 109–112, producing the frame that
line 115 (`gdf.to_dict(orient="records")`) then reads: assign the derived
`lon` and `lat` columns, then evaluate
`gdf.drop(columns=["geometry", "ObjectID_1"]).fillna("")` — whose result
is bound to nothing, exactly as in the source, where the expression
statement discards its value. -/
def csvInputFrame (gdf : GeoDataFrame) : GeoDataFrame :=
  let gdf1 := setColumn gdf "lon" (geometryX gdf)
  let gdf2 := setColumn gdf1 "lat" (geometryY gdf1)
  let _discarded := fillna (dropColumns gdf2 ["geometry", "ObjectID_1"]) (Cell.str "")
  gdf2

theorem getColumn_setColumn_ne (gdf : GeoDataFrame) (n m : String)
    (cells : List Cell) (h : n ≠ m) :
    getColumn (setColumn gdf n cells) m = getColumn gdf m := by
  induction gdf with
  | nil => simp [setColumn, getColumn, h]
  | cons c rest ih =>
    by_cases hc : c.name = n
    · simp [setColumn, getColumn, hc, h]
    · simp only [setColumn, hc, if_false, getColumn]
      by_cases hm : c.name = m
      · simp [hm]
      · simp [hm, ih]

/-- Claim C9: the dropped-columns/filled-nulls expression of
`generate_dataset` discards its result, so the frame used to build the CSV
records is unchanged by it: it equals the frame with only the `lon`/`lat`
assignments applied, its `geometry` and `ObjectID_1` columns are exactly
those of the input frame, and every column other than the assigned
`lon`/`lat` — null cells included — is left exactly as it was. -/
theorem csvInputFrame_discards_drop_fillna (gdf : GeoDataFrame) :
    csvInputFrame gdf =
      setColumn (setColumn gdf "lon" (geometryX gdf)) "lat"
        (geometryY (setColumn gdf "lon" (geometryX gdf))) ∧
    getColumn (csvInputFrame gdf) "geometry" = getColumn gdf "geometry" ∧
    getColumn (csvInputFrame gdf) "ObjectID_1" = getColumn gdf "ObjectID_1" ∧
    ∀ n, n ≠ "lon" → n ≠ "lat" →
      getColumn (csvInputFrame gdf) n = getColumn gdf n := by
  have hgen : ∀ n, n ≠ "lon" → n ≠ "lat" →
      getColumn (csvInputFrame gdf) n = getColumn gdf n := by
    intro n h1 h2
    show getColumn (setColumn (setColumn gdf "lon" (geometryX gdf)) "lat"
      (geometryY (setColumn gdf "lon" (geometryX gdf)))) n = getColumn gdf n
    rw [getColumn_setColumn_ne _ _ _ _ (fun he => h2 he.symm)]
    rw [getColumn_setColumn_ne _ _ _ _ (fun he => h1 he.symm)]
  exact ⟨rfl, hgen "geometry" (by decide) (by decide),
    hgen "ObjectID_1" (by decide) (by decide), hgen⟩

/-- A concrete frame with a point geometry, an `ObjectID_1` column and a
column containing a null cell. -/
def exFrame : GeoDataFrame :=
  [ ⟨"geometry", [Cell.point 121 14]⟩,
    ⟨"ObjectID_1", [Cell.num 1]⟩,
    ⟨"remarks", [Cell.null]⟩ ]

/-- Witness for C9: on `exFrame` the frame feeding the CSV records still
holds the `geometry` and `ObjectID_1` columns, and the null cell of
`remarks` is still null (unfilled). -/
theorem csvInputFrame_discards_drop_fillna_witness :
    getColumn (csvInputFrame exFrame) "geometry" = some [Cell.point 121 14] ∧
    getColumn (csvInputFrame exFrame) "ObjectID_1" = some [Cell.num 1] ∧
    getColumn (csvInputFrame exFrame) "remarks" = some [Cell.null] :=
  ⟨((csvInputFrame_discards_drop_fillna exFrame).2.1).trans (by decide),
    ((csvInputFrame_discards_drop_fillna exFrame).2.2.1).trans (by decide),
    ((csvInputFrame_discards_drop_fillna exFrame).2.2.2 "remarks"
      (by decide) (by decide)).trans (by decide)⟩

/-! Model of `Pipeline.generate_dataset` (`pipeline.py` lines 72–149).
The external HDX object model (Dataset, Resource) is out of scope per the
spec; it is modelled by plain records capturing the fields this code sets,
and the external calls (slugify, geopandas `read_file`, country-location
assignment) by oracles.  File-system writes (the GeoJSON export and
temp-dir creation, lines 104–107) are side effects outside the model. -/

/-- The error raised by `Dataset.add_country_location` and caught at
`pipeline.py` lines 98–102. -/
inductive HDXError
  | hdxError (msg : String)
deriving DecidableEq, Repr

/-- One resource attached to the dataset (CSV, GeoJSON or GeoService). -/
structure ResourceModel where
  name : String
  description : String
  format : Option String
  url : Option String
deriving DecidableEq, Repr

/-- The dataset record as assembled by `generate_dataset`. -/
structure DatasetModel where
  name : String
  title : String
  time_period_start : Option DateTime
  time_period_end : Option DateTime
  tags : List String
  locations : List String
  resources : List ResourceModel
deriving DecidableEq, Repr

/-- External collaborators of `generate_dataset`: `slugify` (line 79),
geopandas `read_file` keyed by the ESRIJSON query URL (line 90), and
`Dataset.add_country_location` (line 99), which either succeeds, adding
the country, or raises `HDXError`. -/
structure HdxOps where
  slugify : String → String
  read_file : String → GeoDataFrame
  add_country_location : String → Except HDXError Unit

/-- The urlencoded fixed layer query of `pipeline.py` lines 83–89. -/
def layerQueryString : String :=
  "f=json&orderByFields=OBJECTID&outFields=%2A&where=1%3D1"

/-- `gdf.to_dict(orient="records")` (line 115): one record per row, each
pairing every column name with that row's cell. -/
def toRecords (gdf : GeoDataFrame) : List (List (String × Cell)) :=
  (List.range ((gdf.map fun c => c.cells.length).foldr max 0)).map fun i =>
    gdf.map fun c => (c.name, c.cells.getD i Cell.null)

/-- Embedding of `Pipeline.generate_dataset` (`pipeline.py` lines 72–149).
`Except.ok none` models Python returning `None` (the early `return` of
line 102 after `HDXError` is caught); `Except.ok (some ds)` models
returning the dataset of line 149; `Except.error` models an uncaught
exception (`layer_data[0]` at line 119 raises `IndexError` on an empty
record list). -/
def generate_dataset (cfg : Config) (ops : HdxOps)
    (layer_info : LayerDescriptor) : Except PyErr (Option DatasetModel) :=
  let layer_id := layer_info.layer_id
  let layer_name := layer_info.layer_name
  let slug := ops.slugify layer_name
  let service_url := layer_info.service_url
  let layer_url := service_url ++ "/" ++ toString layer_id
  let query_url := layer_url ++ "/query?" ++ layerQueryString
  let gdf := ops.read_file ("ESRIJSON:" ++ query_url)
  let dataset : DatasetModel :=
    { name := slug, title := "Philippines: " ++ layer_name,
      time_period_start := layer_info.min_date,
      time_period_end := layer_info.max_date,
      tags := cfg.tags, locations := [], resources := [] }
  match ops.add_country_location "PHL" with
  | Except.error _ => Except.ok none
  | Except.ok _ =>
    let dataset := { dataset with locations := ["PHL"] }
    let gdf2 := csvInputFrame gdf
    let layer_data := toRecords gdf2
    match layer_data with
    | [] => Except.error PyErr.indexError
    | _ :: _ =>
      let csvResource : ResourceModel :=
        { name := slug ++ ".csv",
          description := "CSV format of the summary of " ++ layer_name,
          format := none, url := none }
      let geojsonResource : ResourceModel :=
        { name := slug ++ ".geojson",
          description := "Geojson format of the summary of " ++ layer_name,
          format := some "GeoJSON", url := none }
      let geoserviceResource : ResourceModel :=
        { name := layer_name,
          description := "ArcGIS Map Service of the summary of " ++ layer_name,
          format := some "GeoService", url := some service_url }
      Except.ok (some { dataset with
        resources := [csvResource, geojsonResource, geoserviceResource] })

/-- Claim C10: for every layer descriptor, configuration and collaborator
set, if adding the country location raises `HDXError` then
`generate_dataset` returns `None` instead of a dataset — so no dataset and
no resources are produced for that layer, whatever the frame contents. -/
theorem generate_dataset_country_failure (cfg : Config) (ops : HdxOps)
    (layer_info : LayerDescriptor) (e : HDXError)
    (h : ops.add_country_location "PHL" = Except.error e) :
    generate_dataset cfg ops layer_info = Except.ok none := by
  simp [generate_dataset, h]

/-- Witness for C10: with a country-location oracle that always raises,
`generate_dataset` returns `None` on the A.0 descriptor. -/
theorem generate_dataset_country_failure_witness :
    generate_dataset exCfg
      { slugify := fun s => s,
        read_file := fun _ => exFrame,
        add_country_location := fun _ => Except.error (HDXError.hdxError "not found") }
      exDescA0 = Except.ok none :=
  generate_dataset_country_failure exCfg
    { slugify := fun s => s,
      read_file := fun _ => exFrame,
      add_country_location := fun _ => Except.error (HDXError.hdxError "not found") }
    exDescA0 (HDXError.hdxError "not found") rfl
